import Mathlib

/-!
# SampleDLL: shared-memory frame hand-off and poll loop

A shallow embedding of `CSharp/SampleDLL/dllmain.cpp`.

* The shared segment is a value of `MMF_Data`; the Win32 calls that open and
  map it are abstracted to "the view is available" (`some data`) or not
  (`none`).
* Reference parameters of `getMMF` are passed in and returned as `FrameRefs`.
* A call that ends in a C++ exception is the outcome `Call.threw`.
* Console output and the 5 ms sleep are not modelled.
-/

namespace SampleDLL

/-! ## Data model -/

/-- The struct ROI. -/
structure ROI where
  x : Int
  y : Int
deriving DecidableEq

/-- The struct SettingParameters (the exported function of the same name is
`SettingParameters` below). -/
structure SettingParametersData where
  version : String
  analytics_event_api_url : String
  image_width : Int
  image_height : Int
  jpg_compress : Int
  sensitivity : List Int
  threshold : List Int
  rois : List (List ROI)

def MMF_DATA_HEADER : Int := 0x1234

def MMF_DATA_FOOTER : Int := 0x4321

/-- Number of elements of the array `image_data` in `MMF_Data`. -/
def IMAGE_DATA_CAPACITY : Nat := 1920 * 1080 * 3

/-- The struct MMF_Data, the record that fills the shared segment.
`image_data i` is the byte at offset `i` from the start of the array
`image_data`; only offsets below `IMAGE_DATA_CAPACITY` lie inside the array,
larger offsets address whatever memory follows it. -/
structure MMF_Data where
  header : Int
  image_status : Int
  image_width : Int
  image_height : Int
  image_size : Int
  timestamp : Nat
  image_data : Nat → Nat
  footer : Int

/-- Outcome of a call that may end in a C++ exception. -/
inductive Call (α : Type) where
  | threw : Call α
  | returned : α → Call α

/-- The reference parameters of `getMMF`: the buffer behind `*frame`
(`none` is `nullptr`) and `width`, `height`, `size`, `timestamp`. -/
structure FrameRefs where
  frame : Option (List Nat)
  width : Int
  height : Int
  size : Int
  timestamp : Nat
deriving DecidableEq

/-- What a returning call of `getMMF` leaves behind: the return value, the
reference parameters and the segment. -/
structure GetMMFResult where
  ret : Int
  refs : FrameRefs
  seg : Option MMF_Data

/-! ## getMMF -/

/-- The record after `memset(data, 0, sizeof(MMF_Data))`. -/
def memsetZero : MMF_Data :=
  { header := 0, image_status := 0, image_width := 0, image_height := 0,
    image_size := 0, timestamp := 0, image_data := fun _ => 0, footer := 0 }

/-- Lines 92-97: a record whose sentinels do not match is zeroed and its
sentinels are written. -/
def initCheck (data : MMF_Data) : MMF_Data :=
  if data.header ≠ MMF_DATA_HEADER ∨ data.footer ≠ MMF_DATA_FOOTER then
    { memsetZero with header := MMF_DATA_HEADER, footer := MMF_DATA_FOOTER }
  else data

/-- The bytes `memcpy(dst, src, n)` reads: `src[0], ..., src[n-1]`. -/
def memcpy (src : Nat → Nat) (n : Nat) : List Nat :=
  (List.range n).map src

/-- The function getMMF. `seg = none` covers the two early `return -1`
(the mapping cannot be opened or viewed). `new unsigned char[n]` with
negative `n` throws; with `n ≥ 0` it is taken to succeed. A buffer already
behind `*frame` is deleted and replaced. -/
def getMMF (seg : Option MMF_Data) (refs : FrameRefs) : Call GetMMFResult :=
  match seg with
  | none => .returned { ret := -1, refs := refs, seg := none }
  | some mapped =>
    let data := initCheck mapped
    if data.image_status = 1 then
      if data.image_size < 0 then .threw
      else
        .returned
          { ret := 1
            refs :=
              { frame := some (memcpy data.image_data data.image_size.toNat)
                timestamp := data.timestamp
                size := data.image_size
                width := data.image_width
                height := data.image_height }
            seg := some { data with image_status := 2 } }
    else .returned { ret := 1, refs := refs, seg := some data }

/-! ## RecognizeTask -/

/-- The globals read or written by the exported functions and the poller.
`g_callbackFunctionPtr` holds the identity of the registered function,
`none` for `nullptr`. -/
structure Globals where
  g_portnum : Int
  g_running : Bool
  g_url : String
  g_callbackFunctionPtr : Option Nat
  g_isSetting : Bool
deriving DecidableEq

/-- The initial values of the globals (lines 50-57). -/
def Globals.start : Globals :=
  { g_portnum := 0, g_running := true, g_url := "",
    g_callbackFunctionPtr := none, g_isSetting := false }

/-- The locals of RecognizeTask that live across iterations. -/
structure Locals where
  isDetected : Bool
  count : Int
deriving DecidableEq

/-- The values of the locals when RecognizeTask starts. -/
def Locals.start : Locals := { isDetected := false, count := 0 }

/-- One invocation of the callback: which function was called and the nine
arguments of `CallBackFunction`; `imageframe` is the content of the buffer
the pointer argument addresses. -/
structure CallbackCall where
  callback : Nat
  channelid : Int
  width : Int
  height : Int
  imageframe : List Nat
  image_size : Int
  timestamp : Nat
  rois_rects : List ROI
  rois_count : Int
  node_count : Int
deriving DecidableEq

/-- The local array `rois[2][4]` of RecognizeTask. -/
def rois : List (List ROI) :=
  [ [⟨0, 0⟩, ⟨10, 10⟩, ⟨30, 30⟩, ⟨40, 40⟩],
    [⟨50, 50⟩, ⟨60, 60⟩, ⟨70, 70⟩, ⟨80, 80⟩] ]

/-- The element `rois[i][j]`. -/
def roisAt (i j : Nat) : ROI := (rois.getD i []).getD j ⟨0, 0⟩

/-- The two nested loops of lines 158-163 that fill `flattened_rois`. -/
def flattened_rois : List ROI :=
  (List.range 2).flatMap fun i => (List.range 4).map fun j => roisAt i j

/-- Increment of a 32-bit `int` with two's-complement wrap-around. -/
def wrapInt32 (x : Int) : Int := (x + 2 ^ 31) % 2 ^ 32 - 2 ^ 31

/-- Result of one pass through the body of the `while (true)` loop. -/
inductive TickResult where
  | exited : TickResult
  | threw : TickResult
  | continued : Locals → Option MMF_Data → Option CallbackCall → TickResult

/-- The locals passed by reference to getMMF, as initialised at lines
137-139. -/
def freshRefs : FrameRefs :=
  { frame := none, width := 0, height := 0, size := 0, timestamp := 0 }

/-- One iteration of the loop of RecognizeTask (lines 132-177). -/
def tick (g : Globals) (loc : Locals) (seg : Option MMF_Data) : TickResult :=
  if !g.g_running then .exited
  else
    match getMMF seg freshRefs with
    | .threw => .threw
    | .returned r =>
      if r.ret = 1 then
        if g.g_isSetting && decide (r.refs.size > 0) then
          let isDetected := if Int.tmod loc.count 60 = 0 then true else loc.isDetected
          if isDetected then
            match g.g_callbackFunctionPtr with
            | some cb =>
              .continued { isDetected := false, count := wrapInt32 (loc.count + 1) } r.seg
                (some
                  { callback := cb
                    channelid := g.g_portnum
                    width := r.refs.width
                    height := r.refs.height
                    imageframe := r.refs.frame.getD []
                    image_size := r.refs.size
                    timestamp := r.refs.timestamp
                    rois_rects := flattened_rois
                    rois_count := 2
                    node_count := 4 })
            | none =>
              .continued { isDetected := isDetected, count := wrapInt32 (loc.count + 1) }
                r.seg none
          else
            .continued { isDetected := isDetected, count := wrapInt32 (loc.count + 1) }
              r.seg none
        else .continued loc r.seg none
      else .continued loc r.seg none

/-! ## Exported functions -/

/-- The exported function SettingParameters: stores the URL, prints the
parameters and sets `g_isSetting`. -/
def SettingParameters (parameters : SettingParametersData) (g : Globals) : Globals :=
  { g with g_url := parameters.analytics_event_api_url, g_isSetting := true }

/-- The exported function registerCallback (`none` is a null argument). -/
def registerCallback (callback : Option Nat) (g : Globals) : Globals :=
  { g with g_callbackFunctionPtr := callback }

/-- The exported function unregisterCallback. -/
def unregisterCallback (g : Globals) : Globals :=
  { g with g_callbackFunctionPtr := none }

/-- The stores to globals made by the exported function Deinitialize before
it blocks in `g_bgThread.join()`: there are none. -/
def Deinitialize (g : Globals) : Globals := g

/-- The stores to globals made by DllMain on DLL_PROCESS_DETACH before it
joins the thread. -/
def DllMain_PROCESS_DETACH (joinable : Bool) (g : Globals) : Globals :=
  if joinable then { g with g_running := false } else g

/-! ## The process as a transition system

Ticks of the poller are atomic here: the calls of the host and the writes of
the producer happen between two iterations of the loop. -/

/-- The thread `g_bgThread`. `terminated` is the end of the whole process by
`std::terminate`. -/
inductive Poller where
  | notStarted : Poller
  | running : Locals → Poller
  | exited : Poller
  | terminated : Poller

/-- The process together with the shared segment and the list of callback
invocations made so far (oldest first). -/
structure Sys where
  g : Globals
  poller : Poller
  seg : Option MMF_Data
  calls : List CallbackCall

/-- The state when the library has just been loaded. -/
def Sys.start (seg : Option MMF_Data) : Sys :=
  { g := Globals.start, poller := .notStarted, seg := seg, calls := [] }

/-- What can happen next: a call of an exported function, the unloading of
the library, a write to the segment from outside the process, or one
iteration of the poller. -/
inductive Event where
  | callInitialize : Int → Event
  | callSettingParameters : SettingParametersData → Event
  | callRegisterCallback : Option Nat → Event
  | callUnregisterCallback : Event
  | processDetach : Event
  | producer : (Option MMF_Data → Option MMF_Data) → Event
  | pollerTick : Event

/-- The exported function Initialize on the whole state: stores the port
number and starts the thread. Assigning to a `std::thread` that is still
joinable calls `std::terminate`. -/
def Initialize (PortNumber : Int) (s : Sys) : Sys :=
  match s.poller with
  | .notStarted =>
    { s with g := { s.g with g_portnum := PortNumber }, poller := .running Locals.start }
  | _ => { s with g := { s.g with g_portnum := PortNumber }, poller := .terminated }

/-- One iteration of the poller on the whole state. -/
def pollerStep (s : Sys) : Sys :=
  match s.poller with
  | .running loc =>
    match tick s.g loc s.seg with
    | .exited => { s with poller := .exited }
    | .threw => { s with poller := .terminated }
    | .continued loc1 seg1 call =>
      { s with poller := .running loc1, seg := seg1, calls := s.calls ++ call.toList }
  | _ => s

/-- One event. Nothing happens any more once the process has terminated. -/
def step (s : Sys) (e : Event) : Sys :=
  match s.poller with
  | .terminated => s
  | _ =>
    match e with
    | .callInitialize n => Initialize n s
    | .callSettingParameters p => { s with g := SettingParameters p s.g }
    | .callRegisterCallback cb => { s with g := registerCallback cb s.g }
    | .callUnregisterCallback => { s with g := unregisterCallback s.g }
    | .processDetach =>
      { s with
        g := DllMain_PROCESS_DETACH
          (match s.poller with | .notStarted => false | _ => true) s.g }
    | .producer write => { s with seg := write s.seg }
    | .pollerTick => pollerStep s

/-- A run: the events one after the other. -/
def run (s : Sys) (es : List Event) : Sys := es.foldl step s

/-- Is the event a call of SettingParameters? -/
def Event.isSettingParameters : Event → Bool
  | .callSettingParameters _ => true
  | _ => false

/-- Is the event a call of registerCallback? -/
def Event.isRegisterCallback : Event → Bool
  | .callRegisterCallback _ => true
  | _ => false

/-- Is the event the unloading of the library? -/
def Event.isProcessDetach : Event → Bool
  | .processDetach => true
  | _ => false

/-- The locals of the poller in `s1` are those it had in `s0`, or the
start values when the thread was started in between. -/
def localsKept (s0 s1 : Sys) : Prop :=
  (s1.poller = .notStarted → s0.poller = .notStarted) ∧
  ∀ loc : Locals, s1.poller = .running loc →
    s0.poller = .running loc ∨ (s0.poller = .notStarted ∧ loc = Locals.start)

/-- Successive calls of getMMF on the segment with no write from outside in
between, each with the fresh reference parameters RecognizeTask passes; the
outcomes, oldest first. A call that throws ends the sequence. -/
def getMMF_repeat : Nat → Option MMF_Data → List (Call GetMMFResult)
  | 0, _ => []
  | n + 1, seg =>
    match getMMF seg freshRefs with
    | .threw => [.threw]
    | .returned r => .returned r :: getMMF_repeat n r.seg

/-! ## Lines 149-166 statement by statement

RecognizeTask holds `g_mtx` during an iteration, but registerCallback,
unregisterCallback and SettingParameters never lock it, so their stores can
fall between any two statements of the poller. Here the part of an iteration
that reads `g_callbackFunctionPtr` is split at its two reads. -/

/-- Where the poller stands: before the test of line 149, before the call
of line 165 (the test has succeeded), or past the `if`. -/
inductive DispatchPc where
  | atTest : DispatchPc
  | atCall : DispatchPc
  | done : DispatchPc
deriving DecidableEq

/-- The globals, the flag `isDetected`, the position of the poller, and
what the poller has called through: `some p` is a call through the value `p`
loaded from `g_callbackFunctionPtr`, so `some none` is a call through a null
pointer. -/
structure Dispatch where
  g : Globals
  isDetected : Bool
  pc : DispatchPc
  called : Option (Option Nat)
deriving DecidableEq

/-- One statement of the poller. Line 149 reads `g_callbackFunctionPtr` for
the test; line 165 reads it again for the call, and line 166 clears the
flag. -/
def pollerStatement (s : Dispatch) : Dispatch :=
  match s.pc with
  | .atTest =>
    if s.isDetected && s.g.g_callbackFunctionPtr.isSome then { s with pc := .atCall }
    else { s with pc := .done }
  | .atCall =>
    { s with called := some s.g.g_callbackFunctionPtr, isDetected := false, pc := .done }
  | .done => s

/-- Who runs next: the poller thread, or a host thread inside one of the
exported functions that write a global. -/
inductive Turn where
  | poller : Turn
  | hostRegisterCallback : Option Nat → Turn
  | hostUnregisterCallback : Turn
  | hostSettingParameters : SettingParametersData → Turn

/-- One turn of the schedule. -/
def turn (s : Dispatch) : Turn → Dispatch
  | .poller => pollerStatement s
  | .hostRegisterCallback cb => { s with g := registerCallback cb s.g }
  | .hostUnregisterCallback => { s with g := unregisterCallback s.g }
  | .hostSettingParameters p => { s with g := SettingParameters p s.g }

/-- A schedule, turn after turn. -/
def interleave (s : Dispatch) (schedule : List Turn) : Dispatch :=
  schedule.foldl turn s

/-- The poller at line 149 with the detection flag set, settings applied
and callback 1 registered. -/
def atTestWithCallback : Dispatch :=
  { g := { g_portnum := 7, g_running := true, g_url := "",
           g_callbackFunctionPtr := some 1, g_isSetting := true }
    isDetected := true, pc := .atTest, called := none }

/-! ## Sample inputs -/

/-- A produced frame of three bytes. -/
def sampleSlot : MMF_Data :=
  { header := MMF_DATA_HEADER, image_status := 1, image_width := 1, image_height := 1,
    image_size := 3, timestamp := 1000, image_data := fun i => i + 1,
    footer := MMF_DATA_FOOTER }

/-- A segment that was never written by a producer: no sentinels, but a
status of 1. -/
def garbageSlot : MMF_Data :=
  { header := 0, image_status := 1, image_width := 5, image_height := 6,
    image_size := 7, timestamp := 8, image_data := fun _ => 9, footer := 0 }

/-- A slot whose declared size is one more than the array holds. -/
def oversizedSlot : MMF_Data :=
  { header := MMF_DATA_HEADER, image_status := 1, image_width := 1920, image_height := 1080,
    image_size := 1920 * 1080 * 3 + 1, timestamp := 1, image_data := fun _ => 0,
    footer := MMF_DATA_FOOTER }

/-- Some parameters for SettingParameters. -/
def sampleParameters : SettingParametersData :=
  { version := "1.0", analytics_event_api_url := "http://localhost/event",
    image_width := 640, image_height := 480, jpg_compress := 80,
    sensitivity := [], threshold := [], rois := [] }

/-- Library loaded with the sample slot in the segment, Initialize(7) and
registerCallback called, SettingParameters not yet. -/
def beforeSettings : Sys :=
  run (Sys.start (some sampleSlot)) [.callInitialize 7, .callRegisterCallback (some 1)]

/-- Initialize(7), SettingParameters and registerCallback called, the sample
slot in the segment, no iteration of the poller yet. -/
def readyToDispatch : Sys :=
  run (Sys.start (some sampleSlot))
    [.callInitialize 7, .callSettingParameters sampleParameters,
      .callRegisterCallback (some 1)]

/-- Initialize(7) and SettingParameters called with no callback registered,
one iteration on the sample slot, then registerCallback and a new frame from
the producer. -/
def pendingDetection : Sys :=
  run (Sys.start (some sampleSlot))
    [.callInitialize 7, .callSettingParameters sampleParameters, .pollerTick,
      .callRegisterCallback (some 1), .producer (fun _ => some sampleSlot)]

/-- The segment of the scenario for channel 7: status 1, 640 x 480, 921600
bytes, timestamp 1000, every payload byte 0xAB. -/
def scenarioSlot : MMF_Data :=
  { header := MMF_DATA_HEADER, image_status := 1, image_width := 640, image_height := 480,
    image_size := 921600, timestamp := 1000, image_data := fun _ => 0xAB,
    footer := MMF_DATA_FOOTER }

/-! ## Lemmas on getMMF -/

theorem initCheck_of_valid (d : MMF_Data) (hh : d.header = MMF_DATA_HEADER)
    (hf : d.footer = MMF_DATA_FOOTER) : initCheck d = d := by
  simp [initCheck, hh, hf]

theorem initCheck_of_invalid (d : MMF_Data)
    (hbad : d.header ≠ MMF_DATA_HEADER ∨ d.footer ≠ MMF_DATA_FOOTER) :
    initCheck d =
      { memsetZero with header := MMF_DATA_HEADER, footer := MMF_DATA_FOOTER } := by
  simp only [initCheck, if_pos hbad]

theorem memcpy_length (src : Nat → Nat) (n : Nat) : (memcpy src n).length = n := by
  simp [memcpy]

theorem memcpy_get (src : Nat → Nat) (n i : Nat) (hi : i < (memcpy src n).length) :
    (memcpy src n).get ⟨i, hi⟩ = src i := by
  simp [memcpy]

theorem getMMF_produced (d : MMF_Data) (refs : FrameRefs)
    (hh : d.header = MMF_DATA_HEADER) (hf : d.footer = MMF_DATA_FOOTER)
    (hs : d.image_status = 1) (h0 : 0 ≤ d.image_size) :
    getMMF (some d) refs = .returned
      { ret := 1
        refs :=
          { frame := some (memcpy d.image_data d.image_size.toNat)
            width := d.image_width, height := d.image_height
            size := d.image_size, timestamp := d.timestamp }
        seg := some { d with image_status := 2 } } := by
  have hneg : ¬ d.image_size < 0 := not_lt.mpr h0
  simp [getMMF, initCheck_of_valid d hh hf, hs, hneg]

theorem getMMF_not_produced (d : MMF_Data) (refs : FrameRefs)
    (hh : d.header = MMF_DATA_HEADER) (hf : d.footer = MMF_DATA_FOOTER)
    (hs : d.image_status ≠ 1) :
    getMMF (some d) refs = .returned { ret := 1, refs := refs, seg := some d } := by
  simp [getMMF, initCheck_of_valid d hh hf, hs]

theorem getMMF_repeat_idle (d : MMF_Data)
    (hh : d.header = MMF_DATA_HEADER) (hf : d.footer = MMF_DATA_FOOTER)
    (hs : d.image_status ≠ 1) (n : Nat) :
    getMMF_repeat n (some d) =
      List.replicate n (.returned { ret := 1, refs := freshRefs, seg := some d }) := by
  induction n with
  | zero => rfl
  | succ n ih =>
    simp only [getMMF_repeat, getMMF_not_produced d freshRefs hh hf hs, ih, List.replicate_succ]

/-! ## Claims on getMMF -/

/-- C1: on a slot with matching sentinels, status 1 and a size within
`0 < image_size ≤ 1920*1080*3`, getMMF returns 1 with a buffer of exactly
`image_size` bytes, byte `i` being `image_data[i]` (an index inside the
array), with width, height, size and timestamp those of the slot, and the
slot is left unchanged except for `image_status = 2`. -/
theorem getMMF_takes_produced_frame (d : MMF_Data) (refs : FrameRefs)
    (hh : d.header = MMF_DATA_HEADER) (hf : d.footer = MMF_DATA_FOOTER)
    (hs : d.image_status = 1) (h0 : 0 < d.image_size)
    (hcap : d.image_size ≤ IMAGE_DATA_CAPACITY) :
    ∃ frame : List Nat,
      getMMF (some d) refs = .returned
        { ret := 1
          refs :=
            { frame := some frame, width := d.image_width, height := d.image_height
              size := d.image_size, timestamp := d.timestamp }
          seg := some { d with image_status := 2 } }
      ∧ (frame.length : Int) = d.image_size
      ∧ ∀ (i : Nat) (hi : i < frame.length),
          i < IMAGE_DATA_CAPACITY ∧ frame.get ⟨i, hi⟩ = d.image_data i := by
  refine ⟨memcpy d.image_data d.image_size.toNat,
    getMMF_produced d refs hh hf hs h0.le, ?_, ?_⟩
  · rw [memcpy_length]; exact Int.toNat_of_nonneg h0.le
  · intro i hi
    refine ⟨?_, memcpy_get _ _ _ hi⟩
    rw [memcpy_length] at hi
    have : (i : Int) < d.image_size := by
      have := Int.toNat_of_nonneg h0.le
      omega
    omega

/-- C1 at the sample slot of three bytes. -/
theorem getMMF_takes_produced_frame_witness :
    ∃ frame : List Nat,
      getMMF (some sampleSlot) freshRefs = .returned
        { ret := 1
          refs :=
            { frame := some frame, width := sampleSlot.image_width
              height := sampleSlot.image_height
              size := sampleSlot.image_size, timestamp := sampleSlot.timestamp }
          seg := some { sampleSlot with image_status := 2 } }
      ∧ (frame.length : Int) = sampleSlot.image_size
      ∧ ∀ (i : Nat) (hi : i < frame.length),
          i < IMAGE_DATA_CAPACITY ∧ frame.get ⟨i, hi⟩ = sampleSlot.image_data i :=
  getMMF_takes_produced_frame sampleSlot freshRefs rfl rfl rfl (by decide) (by decide)

/-- C2, the code at a slot that declares one byte more than the array
holds: getMMF does not reject it. It returns 1 with a buffer of
`1920*1080*3 + 1` bytes whose last byte was read at offset `1920*1080*3`,
the first offset past the end of `image_data`, reports that size, and marks
the slot consumed. -/
theorem getMMF_oversized_reads_past_end :
    ∃ frame : List Nat,
      getMMF (some oversizedSlot) freshRefs = .returned
        { ret := 1
          refs :=
            { frame := some frame, width := 1920, height := 1080
              size := (IMAGE_DATA_CAPACITY : Int) + 1, timestamp := 1 }
          seg := some { oversizedSlot with image_status := 2 } }
      ∧ frame.length = IMAGE_DATA_CAPACITY + 1
      ∧ frame = memcpy oversizedSlot.image_data IMAGE_DATA_CAPACITY
          ++ [oversizedSlot.image_data IMAGE_DATA_CAPACITY] := by
  have hsz : oversizedSlot.image_size.toNat = IMAGE_DATA_CAPACITY + 1 := by
    simp [oversizedSlot, IMAGE_DATA_CAPACITY]
  refine ⟨memcpy oversizedSlot.image_data (IMAGE_DATA_CAPACITY + 1), ?_, ?_, ?_⟩
  · rw [getMMF_produced oversizedSlot freshRefs rfl rfl rfl (by simp [oversizedSlot]), hsz]
    simp [oversizedSlot, IMAGE_DATA_CAPACITY]
  · exact memcpy_length _ _
  · simp [memcpy, List.range_succ]

/-- C3: on a slot whose header or footer is not the sentinel, whatever its
status, getMMF returns with the reference parameters untouched (no frame)
and leaves the slot with both sentinels written, `image_status = 0` and
width, height, size, timestamp and every payload byte zero; each call after
that, with no write from outside in between, again returns with the
reference parameters untouched and the slot as it is. -/
theorem getMMF_resets_bad_sentinels (d : MMF_Data) (refs : FrameRefs)
    (hbad : d.header ≠ MMF_DATA_HEADER ∨ d.footer ≠ MMF_DATA_FOOTER) :
    ∃ z : MMF_Data,
      getMMF (some d) refs = .returned { ret := 1, refs := refs, seg := some z }
      ∧ z.header = MMF_DATA_HEADER ∧ z.footer = MMF_DATA_FOOTER
      ∧ z.image_status = 0 ∧ z.image_width = 0 ∧ z.image_height = 0
      ∧ z.image_size = 0 ∧ z.timestamp = 0 ∧ (∀ i, z.image_data i = 0)
      ∧ (∀ later : FrameRefs,
          getMMF (some z) later = .returned { ret := 1, refs := later, seg := some z })
      ∧ ∀ n : Nat, getMMF_repeat n (some z) =
          List.replicate n (.returned { ret := 1, refs := freshRefs, seg := some z }) := by
  have hz : ({ memsetZero with header := MMF_DATA_HEADER, footer := MMF_DATA_FOOTER }
      : MMF_Data).image_status ≠ 1 := by simp [memsetZero]
  refine ⟨{ memsetZero with header := MMF_DATA_HEADER, footer := MMF_DATA_FOOTER },
    ?_, rfl, rfl, rfl, rfl, rfl, rfl, rfl, fun _ => rfl, ?_, ?_⟩
  · simp [getMMF, initCheck_of_invalid d hbad, memsetZero]
  · intro later
    exact getMMF_not_produced _ later rfl rfl hz
  · intro n
    exact getMMF_repeat_idle _ rfl rfl hz n

/-- C3 at a segment without sentinels whose status field reads 1. -/
theorem getMMF_resets_bad_sentinels_witness :
    ∃ z : MMF_Data,
      getMMF (some garbageSlot) freshRefs =
        .returned { ret := 1, refs := freshRefs, seg := some z }
      ∧ z.header = MMF_DATA_HEADER ∧ z.footer = MMF_DATA_FOOTER
      ∧ z.image_status = 0 ∧ z.image_width = 0 ∧ z.image_height = 0
      ∧ z.image_size = 0 ∧ z.timestamp = 0 ∧ (∀ i, z.image_data i = 0)
      ∧ (∀ later : FrameRefs,
          getMMF (some z) later = .returned { ret := 1, refs := later, seg := some z })
      ∧ ∀ n : Nat, getMMF_repeat n (some z) =
          List.replicate n (.returned { ret := 1, refs := freshRefs, seg := some z }) :=
  getMMF_resets_bad_sentinels garbageSlot freshRefs (Or.inl (by decide))

/-- C4: on a valid produced slot (matching sentinels, status 1,
`0 < image_size ≤ 1920*1080*3`) two calls in a row, each with null frame
pointer and zeroed outputs, give: first a frame of `image_size` bytes and the
slot with status 2; then no frame, the frame pointer still null and the size
output still 0, and the slot exactly as the first call left it. -/
theorem getMMF_twice_some_then_none (d : MMF_Data)
    (hh : d.header = MMF_DATA_HEADER) (hf : d.footer = MMF_DATA_FOOTER)
    (hs : d.image_status = 1) (h0 : 0 < d.image_size)
    (_hcap : d.image_size ≤ IMAGE_DATA_CAPACITY) :
    ∃ (frame : List Nat) (first second : GetMMFResult),
      getMMF_repeat 2 (some d) = [.returned first, .returned second]
      ∧ first.ret = 1 ∧ first.refs.frame = some frame
      ∧ (frame.length : Int) = d.image_size
      ∧ first.seg = some { d with image_status := 2 }
      ∧ second.ret = 1 ∧ second.refs.frame = none ∧ second.refs.size = 0
      ∧ second.refs = freshRefs
      ∧ second.seg = first.seg := by
  have hs2 : ({ d with image_status := 2 } : MMF_Data).image_status ≠ 1 := by simp
  refine ⟨memcpy d.image_data d.image_size.toNat,
    { ret := 1
      refs :=
        { frame := some (memcpy d.image_data d.image_size.toNat)
          width := d.image_width, height := d.image_height
          size := d.image_size, timestamp := d.timestamp }
      seg := some { d with image_status := 2 } },
    { ret := 1, refs := freshRefs, seg := some { d with image_status := 2 } },
    ?_, rfl, rfl, ?_, rfl, rfl, rfl, rfl, rfl, rfl⟩
  · simp only [getMMF_repeat, getMMF_produced d freshRefs hh hf hs h0.le,
      getMMF_not_produced { d with image_status := 2 } freshRefs hh hf hs2]
  · rw [memcpy_length]; exact Int.toNat_of_nonneg h0.le

/-- C4 at the sample slot of three bytes. -/
theorem getMMF_twice_some_then_none_witness :
    ∃ (frame : List Nat) (first second : GetMMFResult),
      getMMF_repeat 2 (some sampleSlot) = [.returned first, .returned second]
      ∧ first.ret = 1 ∧ first.refs.frame = some frame
      ∧ (frame.length : Int) = sampleSlot.image_size
      ∧ first.seg = some { sampleSlot with image_status := 2 }
      ∧ second.ret = 1 ∧ second.refs.frame = none ∧ second.refs.size = 0
      ∧ second.refs = freshRefs
      ∧ second.seg = first.seg :=
  getMMF_twice_some_then_none sampleSlot rfl rfl rfl (by decide) (by decide)

/-! ## Lemmas on one iteration of RecognizeTask -/

/-- A returning call of getMMF on fresh reference parameters that leaves a
positive size has taken a frame from a valid produced slot. -/
theorem getMMF_positive_size (seg : Option MMF_Data) (r : GetMMFResult)
    (h : getMMF seg freshRefs = .returned r) (hpos : 0 < r.refs.size) :
    ∃ d : MMF_Data, seg = some d
      ∧ d.header = MMF_DATA_HEADER ∧ d.footer = MMF_DATA_FOOTER
      ∧ d.image_status = 1 ∧ 0 < d.image_size
      ∧ r =
        { ret := 1
          refs :=
            { frame := some (memcpy d.image_data d.image_size.toNat)
              width := d.image_width, height := d.image_height
              size := d.image_size, timestamp := d.timestamp }
          seg := some { d with image_status := 2 } } := by
  cases seg with
  | none =>
    simp only [getMMF, Call.returned.injEq] at h
    subst h
    simp [freshRefs] at hpos
  | some d =>
    by_cases hbad : d.header ≠ MMF_DATA_HEADER ∨ d.footer ≠ MMF_DATA_FOOTER
    · simp [getMMF, initCheck_of_invalid d hbad, memsetZero] at h
      subst h
      simp [freshRefs] at hpos
    · have hh : d.header = MMF_DATA_HEADER := by
        by_contra hc; exact hbad (Or.inl hc)
      have hf : d.footer = MMF_DATA_FOOTER := by
        by_contra hc; exact hbad (Or.inr hc)
      by_cases hs : d.image_status = 1
      · by_cases hneg : d.image_size < 0
        · simp [getMMF, initCheck_of_valid d hh hf, hs, hneg] at h
        · rw [getMMF_produced d freshRefs hh hf hs (not_lt.mp hneg)] at h
          simp only [Call.returned.injEq] at h
          subst h
          exact ⟨d, rfl, hh, hf, hs, hpos, rfl⟩
      · rw [getMMF_not_produced d freshRefs hh hf hs] at h
        simp only [Call.returned.injEq] at h
        subst h
        simp [freshRefs] at hpos

/-- While `g_isSetting` is false an iteration that goes on changes no local
and calls nothing. -/
theorem tick_without_setting (g : Globals) (loc : Locals) (seg : Option MMF_Data)
    (hset : g.g_isSetting = false) (loc1 : Locals) (seg1 : Option MMF_Data)
    (call : Option CallbackCall) (h : tick g loc seg = .continued loc1 seg1 call) :
    call = none ∧ loc1 = loc := by
  unfold tick at h
  simp only [hset, Bool.false_and, Bool.false_eq_true, if_false] at h
  split at h
  · exact absurd h (by simp)
  · split at h
    · exact absurd h (by simp)
    · simp only [ite_self, TickResult.continued.injEq] at h
      exact ⟨h.2.2.symm, h.1.symm⟩

/-- While `g_callbackFunctionPtr` is null an iteration calls nothing. -/
theorem tick_without_callback (g : Globals) (loc : Locals) (seg : Option MMF_Data)
    (hcb : g.g_callbackFunctionPtr = none) (loc1 : Locals) (seg1 : Option MMF_Data)
    (call : Option CallbackCall) (h : tick g loc seg = .continued loc1 seg1 call) :
    call = none := by
  unfold tick at h
  simp only [hcb] at h
  split at h
  · exact absurd h (by simp)
  · split at h
    · exact absurd h (by simp)
    · split_ifs at h <;>
        · simp only [TickResult.continued.injEq] at h
          exact h.2.2.symm

/-- An iteration with the running flag set, on a valid produced slot of
non-negative size. -/
theorem tick_produced (g : Globals) (loc : Locals) (d : MMF_Data)
    (hrun : g.g_running = true)
    (hh : d.header = MMF_DATA_HEADER) (hf : d.footer = MMF_DATA_FOOTER)
    (hs : d.image_status = 1) (h0 : 0 ≤ d.image_size) :
    tick g loc (some d) =
      if g.g_isSetting && decide (d.image_size > 0) then
        if (if Int.tmod loc.count 60 = 0 then true else loc.isDetected) then
          match g.g_callbackFunctionPtr with
          | some cb =>
            .continued { isDetected := false, count := wrapInt32 (loc.count + 1) }
              (some { d with image_status := 2 })
              (some
                { callback := cb
                  channelid := g.g_portnum
                  width := d.image_width
                  height := d.image_height
                  imageframe := memcpy d.image_data d.image_size.toNat
                  image_size := d.image_size
                  timestamp := d.timestamp
                  rois_rects := flattened_rois
                  rois_count := 2
                  node_count := 4 })
          | none =>
            .continued { isDetected := true, count := wrapInt32 (loc.count + 1) }
              (some { d with image_status := 2 }) none
        else
          .continued { isDetected := false, count := wrapInt32 (loc.count + 1) }
            (some { d with image_status := 2 }) none
      else .continued loc (some { d with image_status := 2 }) none := by
  unfold tick
  rw [getMMF_produced d freshRefs hh hf hs h0]
  simp only [hrun, Bool.not_true, Bool.false_eq_true, if_false, if_true]
  by_cases hc : (g.g_isSetting && decide (d.image_size > 0)) = true
  · simp only [hc, if_true]
    by_cases hd : (if Int.tmod loc.count 60 = 0 then true else loc.isDetected) = true
    · simp only [hd, if_true]
      cases g.g_callbackFunctionPtr <;> simp
    · simp only [hd, if_false, Bool.false_eq_true]
  · simp only [hc, if_false, Bool.false_eq_true]

/-! ## Lemmas on runs -/

theorem run_cons (s : Sys) (e : Event) (es : List Event) :
    run s (e :: es) = run (step s e) es := rfl

theorem step_terminated (s : Sys) (e : Event) (h : s.poller = .terminated) :
    step s e = s := by
  unfold step
  rw [h]

theorem run_terminated (s : Sys) (es : List Event) (h : s.poller = .terminated) :
    run s es = s := by
  induction es with
  | nil => rfl
  | cons e es ih => rw [run_cons, step_terminated s e h, ih]

theorem localsKept_refl (s : Sys) : localsKept s s :=
  ⟨fun h => h, fun _ h => Or.inl h⟩

theorem localsKept_trans (a b c : Sys) (hab : localsKept a b) (hbc : localsKept b c) :
    localsKept a c := by
  refine ⟨fun h => hab.1 (hbc.1 h), fun loc h => ?_⟩
  rcases hbc.2 loc h with hb | ⟨hb, hloc⟩
  · exact hab.2 loc hb
  · exact Or.inr ⟨hab.1 hb, hloc⟩

theorem pollerStep_running (s : Sys) (loc : Locals) (hp : s.poller = .running loc) :
    pollerStep s =
      match tick s.g loc s.seg with
      | .exited => { s with poller := .exited }
      | .threw => { s with poller := .terminated }
      | .continued loc1 seg1 call =>
        { s with poller := .running loc1, seg := seg1, calls := s.calls ++ call.toList } := by
  simp only [pollerStep, hp]

theorem pollerStep_idle (s : Sys) (hp : ∀ loc, s.poller ≠ .running loc) :
    pollerStep s = s := by
  unfold pollerStep
  split
  · exact absurd ‹_› (hp _)
  · rfl

theorem step_of_alive (s : Sys) (e : Event) (hterm : s.poller ≠ .terminated) :
    step s e =
      match e with
      | .callInitialize n => Initialize n s
      | .callSettingParameters p => { s with g := SettingParameters p s.g }
      | .callRegisterCallback cb => { s with g := registerCallback cb s.g }
      | .callUnregisterCallback => { s with g := unregisterCallback s.g }
      | .processDetach =>
        { s with
          g := DllMain_PROCESS_DETACH
            (match s.poller with | .notStarted => false | _ => true) s.g }
      | .producer write => { s with seg := write s.seg }
      | .pollerTick => pollerStep s := by
  unfold step
  split
  · exact absurd ‹_› hterm
  · rfl

theorem pollerStep_without_setting (s : Sys) (hset : s.g.g_isSetting = false) :
    (pollerStep s).g = s.g ∧ (pollerStep s).calls = s.calls
      ∧ localsKept s (pollerStep s) := by
  cases hp : s.poller with
  | notStarted => rw [pollerStep_idle s (by simp [hp])]; exact ⟨rfl, rfl, localsKept_refl s⟩
  | exited => rw [pollerStep_idle s (by simp [hp])]; exact ⟨rfl, rfl, localsKept_refl s⟩
  | terminated => rw [pollerStep_idle s (by simp [hp])]; exact ⟨rfl, rfl, localsKept_refl s⟩
  | running loc =>
    rw [pollerStep_running s loc hp]
    cases ht : tick s.g loc s.seg with
    | exited => exact ⟨rfl, rfl, by simp [localsKept]⟩
    | threw => exact ⟨rfl, rfl, by simp [localsKept]⟩
    | continued loc1 seg1 call =>
      obtain ⟨hcall, hloc⟩ := tick_without_setting s.g loc s.seg hset loc1 seg1 call ht
      subst hcall hloc
      exact ⟨rfl, by simp, by simp [localsKept, hp]⟩

theorem step_without_setting (s : Sys) (e : Event) (hset : s.g.g_isSetting = false)
    (he : e.isSettingParameters = false) :
    (step s e).g.g_isSetting = false ∧ (step s e).calls = s.calls
      ∧ localsKept s (step s e) := by
  by_cases hterm : s.poller = .terminated
  · rw [step_terminated s e hterm]
    exact ⟨hset, rfl, localsKept_refl s⟩
  · rw [step_of_alive s e hterm]
    cases e with
    | callInitialize n =>
      cases hp : s.poller <;> simp [Initialize, hp, hset, localsKept]
    | callSettingParameters p => simp [Event.isSettingParameters] at he
    | callRegisterCallback cb => exact ⟨hset, rfl, localsKept_refl s⟩
    | callUnregisterCallback => exact ⟨hset, rfl, localsKept_refl s⟩
    | processDetach =>
      refine ⟨?_, rfl, localsKept_refl s⟩
      simp only [DllMain_PROCESS_DETACH]
      split_ifs <;> exact hset
    | producer write => exact ⟨hset, rfl, localsKept_refl s⟩
    | pollerTick =>
      obtain ⟨hg, hc, hl⟩ := pollerStep_without_setting s hset
      exact ⟨by simp only [hg]; exact hset, hc, hl⟩

theorem run_without_setting (es : List Event) :
    ∀ s : Sys, s.g.g_isSetting = false → (∀ e ∈ es, e.isSettingParameters = false) →
      (run s es).g.g_isSetting = false ∧ (run s es).calls = s.calls
        ∧ localsKept s (run s es) := by
  induction es with
  | nil => intro s hset _; exact ⟨hset, rfl, localsKept_refl s⟩
  | cons e es ih =>
    intro s hset hno
    obtain ⟨h1, h2, h3⟩ :=
      step_without_setting s e hset (hno e (List.mem_cons_self e es))
    obtain ⟨k1, k2, k3⟩ :=
      ih (step s e) h1 (fun x hx => hno x (List.mem_cons_of_mem e hx))
    rw [run_cons]
    exact ⟨k1, k2.trans h2, localsKept_trans _ _ _ h3 k3⟩

theorem pollerStep_without_callback (s : Sys) (hcb : s.g.g_callbackFunctionPtr = none) :
    (pollerStep s).g = s.g ∧ (pollerStep s).calls = s.calls := by
  cases hp : s.poller with
  | notStarted => rw [pollerStep_idle s (by simp [hp])]; exact ⟨rfl, rfl⟩
  | exited => rw [pollerStep_idle s (by simp [hp])]; exact ⟨rfl, rfl⟩
  | terminated => rw [pollerStep_idle s (by simp [hp])]; exact ⟨rfl, rfl⟩
  | running loc =>
    rw [pollerStep_running s loc hp]
    cases ht : tick s.g loc s.seg with
    | exited => exact ⟨rfl, rfl⟩
    | threw => exact ⟨rfl, rfl⟩
    | continued loc1 seg1 call =>
      have hcall := tick_without_callback s.g loc s.seg hcb loc1 seg1 call ht
      subst hcall
      exact ⟨rfl, by simp⟩

theorem step_without_callback (s : Sys) (e : Event)
    (hcb : s.g.g_callbackFunctionPtr = none) (he : e.isRegisterCallback = false) :
    (step s e).g.g_callbackFunctionPtr = none ∧ (step s e).calls = s.calls := by
  by_cases hterm : s.poller = .terminated
  · rw [step_terminated s e hterm]
    exact ⟨hcb, rfl⟩
  · rw [step_of_alive s e hterm]
    cases e with
    | callInitialize n =>
      cases hp : s.poller <;> simp [Initialize, hp, hcb]
    | callSettingParameters p => exact ⟨hcb, rfl⟩
    | callRegisterCallback cb => simp [Event.isRegisterCallback] at he
    | callUnregisterCallback => exact ⟨rfl, rfl⟩
    | processDetach =>
      refine ⟨?_, rfl⟩
      simp only [DllMain_PROCESS_DETACH]
      split_ifs <;> exact hcb
    | producer write => exact ⟨hcb, rfl⟩
    | pollerTick =>
      obtain ⟨hg, hc⟩ := pollerStep_without_callback s hcb
      exact ⟨by simp only [hg]; exact hcb, hc⟩

theorem run_without_callback (es : List Event) :
    ∀ s : Sys, s.g.g_callbackFunctionPtr = none →
      (∀ e ∈ es, e.isRegisterCallback = false) → (run s es).calls = s.calls := by
  induction es with
  | nil => intro s _ _; rfl
  | cons e es ih =>
    intro s hcb hno
    obtain ⟨h1, h2⟩ := step_without_callback s e hcb (hno e (List.mem_cons_self e es))
    rw [run_cons, ih (step s e) h1 (fun x hx => hno x (List.mem_cons_of_mem e hx)), h2]

theorem tick_running_ne_exited (g : Globals) (loc : Locals) (seg : Option MMF_Data)
    (hrun : g.g_running = true) : tick g loc seg ≠ .exited := by
  unfold tick
  simp only [hrun, Bool.not_true, Bool.false_eq_true, if_false]
  split
  · simp
  · cases g.g_callbackFunctionPtr <;> (split_ifs <;> simp)

theorem step_keeps_running (s : Sys) (e : Event) (hrun : s.g.g_running = true)
    (hp : s.poller ≠ .exited) (he : e.isProcessDetach = false) :
    (step s e).g.g_running = true ∧ (step s e).poller ≠ .exited := by
  by_cases hterm : s.poller = .terminated
  · rw [step_terminated s e hterm]
    exact ⟨hrun, hp⟩
  · rw [step_of_alive s e hterm]
    cases e with
    | callInitialize n =>
      cases hq : s.poller <;> simp [Initialize, hq, hrun]
    | callSettingParameters p => exact ⟨hrun, hp⟩
    | callRegisterCallback cb => exact ⟨hrun, hp⟩
    | callUnregisterCallback => exact ⟨hrun, hp⟩
    | processDetach => simp [Event.isProcessDetach] at he
    | producer write => exact ⟨hrun, hp⟩
    | pollerTick =>
      cases hq : s.poller with
      | notStarted => rw [pollerStep_idle s (by simp [hq])]; exact ⟨hrun, hp⟩
      | exited => exact absurd hq hp
      | terminated => exact absurd hq hterm
      | running loc =>
        rw [pollerStep_running s loc hq]
        have hne := tick_running_ne_exited s.g loc s.seg hrun
        cases ht : tick s.g loc s.seg with
        | exited => exact absurd ht hne
        | threw => exact ⟨hrun, by simp⟩
        | continued loc1 seg1 call => exact ⟨hrun, by simp⟩

theorem run_keeps_running (es : List Event) :
    ∀ s : Sys, s.g.g_running = true → s.poller ≠ .exited →
      (∀ e ∈ es, e.isProcessDetach = false) →
      (run s es).g.g_running = true ∧ (run s es).poller ≠ .exited := by
  induction es with
  | nil => intro s h1 h2 _; exact ⟨h1, h2⟩
  | cons e es ih =>
    intro s h1 h2 hno
    obtain ⟨k1, k2⟩ := step_keeps_running s e h1 h2 (hno e (List.mem_cons_self e es))
    rw [run_cons]
    exact ih (step s e) k1 k2 (fun x hx => hno x (List.mem_cons_of_mem e hx))

/-! ## Claims on the poll loop -/

/-- C5: as long as SettingParameters has not been called (`g_isSetting` is
false), whatever else happens (writes of the producer, iterations of the
poller, calls of the other exported functions), no callback is invoked and
the locals `isDetected` and `count` of the poller keep their values; an
iteration in such a state changes no local and calls nothing, and on a valid
produced slot it takes the frame (the slot goes to status 2) and drops it. -/
theorem no_dispatch_before_SettingParameters (s : Sys) (es : List Event)
    (hset : s.g.g_isSetting = false)
    (hno : ∀ e ∈ es, e.isSettingParameters = false) :
    (run s es).calls = s.calls
    ∧ localsKept s (run s es)
    ∧ (∀ (loc : Locals) (seg : Option MMF_Data) (loc1 : Locals) (seg1 : Option MMF_Data)
        (call : Option CallbackCall),
        tick s.g loc seg = .continued loc1 seg1 call → call = none ∧ loc1 = loc)
    ∧ (∀ (loc : Locals) (d : MMF_Data), s.g.g_running = true →
        d.header = MMF_DATA_HEADER → d.footer = MMF_DATA_FOOTER →
        d.image_status = 1 → 0 ≤ d.image_size →
        tick s.g loc (some d) = .continued loc (some { d with image_status := 2 }) none) := by
  obtain ⟨_, h2, h3⟩ := run_without_setting es s hset hno
  refine ⟨h2, h3, fun loc seg loc1 seg1 call h =>
    tick_without_setting s.g loc seg hset loc1 seg1 call h, ?_⟩
  intro loc d hrun hh hf hs h0
  rw [tick_produced s.g loc d hrun hh hf hs h0]
  simp [hset]

/-- C5 at a run with a registered callback and two produced frames. -/
theorem no_dispatch_before_SettingParameters_witness :
    (run beforeSettings
        [.pollerTick, .producer (fun _ => some sampleSlot), .pollerTick]).calls
      = beforeSettings.calls
    ∧ localsKept beforeSettings
        (run beforeSettings
          [.pollerTick, .producer (fun _ => some sampleSlot), .pollerTick])
    ∧ (∀ (loc : Locals) (seg : Option MMF_Data) (loc1 : Locals) (seg1 : Option MMF_Data)
        (call : Option CallbackCall),
        tick beforeSettings.g loc seg = .continued loc1 seg1 call →
          call = none ∧ loc1 = loc)
    ∧ (∀ (loc : Locals) (d : MMF_Data), beforeSettings.g.g_running = true →
        d.header = MMF_DATA_HEADER → d.footer = MMF_DATA_FOOTER →
        d.image_status = 1 → 0 ≤ d.image_size →
        tick beforeSettings.g loc (some d) =
          .continued loc (some { d with image_status := 2 }) none) :=
  no_dispatch_before_SettingParameters beforeSettings
    [.pollerTick, .producer (fun _ => some sampleSlot), .pollerTick] rfl
    (by simp [Event.isSettingParameters])

/-- C8: from any state, once unregisterCallback has returned, no run without
a call of registerCallback invokes a callback, whatever the producer writes,
whatever the pending `isDetected` and `count` are and however many
iterations of the poller the run contains. -/
theorem no_dispatch_after_unregisterCallback (s : Sys) (es : List Event)
    (hno : ∀ e ∈ es, e.isRegisterCallback = false) :
    (run (step s .callUnregisterCallback) es).calls = s.calls := by
  by_cases hterm : s.poller = .terminated
  · rw [step_terminated s _ hterm, run_terminated s es hterm]
  · have hcb : (step s .callUnregisterCallback).g.g_callbackFunctionPtr = none := by
      rw [step_of_alive s _ hterm]; rfl
    have hcalls : (step s .callUnregisterCallback).calls = s.calls := by
      rw [step_of_alive s _ hterm]
    rw [run_without_callback es _ hcb hno, hcalls]

/-- C8 at a state with settings applied and a callback registered: after
unregisterCallback, two produced frames and two iterations call nothing. -/
theorem no_dispatch_after_unregisterCallback_witness :
    (run (step readyToDispatch .callUnregisterCallback)
        [.pollerTick, .producer (fun _ => some sampleSlot), .pollerTick]).calls
      = readyToDispatch.calls :=
  no_dispatch_after_unregisterCallback readyToDispatch
    [.pollerTick, .producer (fun _ => some sampleSlot), .pollerTick]
    (by simp [Event.isRegisterCallback])

/-- C9, the code: Deinitialize writes no global, so `g_running` keeps its
value. From the initial globals it is still true afterwards, the next
iteration of RecognizeTask does not leave the loop (on the sample slot it
takes the frame), and in no run without DLL_PROCESS_DETACH does the thread
ever exit, so the join of Deinitialize does not return. Only DllMain clears
the flag before joining. -/
theorem Deinitialize_keeps_g_running :
    (∀ g : Globals, ( Deinitialize g).g_running = g.g_running)
    ∧ ( Deinitialize Globals.start).g_running = true
    ∧ (∀ (loc : Locals) (seg : Option MMF_Data),
        tick ( Deinitialize Globals.start) loc seg ≠ .exited)
    ∧ tick ( Deinitialize Globals.start) Locals.start (some sampleSlot) =
        .continued Locals.start (some { sampleSlot with image_status := 2 }) none
    ∧ (∀ (port : Int) (seg : Option MMF_Data) (es : List Event),
        (∀ e ∈ es, e.isProcessDetach = false) →
        (run { Initialize port (Sys.start seg) with
                g := Deinitialize (Initialize port (Sys.start seg)).g } es).poller
          ≠ .exited)
    ∧ (∀ (loc : Locals) (seg : Option MMF_Data),
        tick (DllMain_PROCESS_DETACH true Globals.start) loc seg = .exited) := by
  refine ⟨fun _ => rfl, rfl, fun loc seg => tick_running_ne_exited _ loc seg rfl, ?_, ?_,
    fun _ _ => rfl⟩
  · rw [show Deinitialize Globals.start = Globals.start from rfl,
      tick_produced Globals.start Locals.start sampleSlot rfl rfl rfl rfl (by decide)]
    rfl
  · intro port seg es hno
    exact (run_keeps_running es _ rfl (by simp [Initialize, Sys.start]) hno).2

/-- C6, the code: `isDetected`, raised at line 147, is cleared only at line
166 inside the branch guarded by the callback pointer. With no callback
registered the first frame (`count = 0`) raises the flag and is not
dispatched, and the flag is left set; after registerCallback the next frame
is taken at `count = 1`, for which the stand-in detector does not fire, and
the callback is invoked with that frame all the same. -/
theorem stale_detection_is_dispatched :
    pendingDetection.poller = .running { isDetected := true, count := 1 }
    ∧ pendingDetection.g.g_running = true
    ∧ pendingDetection.g.g_isSetting = true
    ∧ pendingDetection.g.g_callbackFunctionPtr = some 1
    ∧ pendingDetection.calls = []
    ∧ ¬ (Int.tmod 1 60 = 0)
    ∧ ∃ c : CallbackCall,
        tick pendingDetection.g { isDetected := true, count := 1 } pendingDetection.seg =
          .continued { isDetected := false, count := 2 }
            (some { sampleSlot with image_status := 2 }) (some c)
        ∧ (step pendingDetection .pollerTick).calls = [c]
        ∧ c.callback = 1 ∧ c.imageframe = [1, 2, 3] := by
  refine ⟨rfl, rfl, rfl, rfl, rfl, by decide, ?_⟩
  exact ⟨_, rfl, rfl, rfl, rfl⟩

/-- What lines 143-170 do on an iteration that takes a frame of positive
size while `g_isSetting` is true: the callback is invoked exactly when a
callback is registered and `isDetected` is set in that iteration, by the
stand-in detector for this frame (`count % 60 == 0`) or left over from an
earlier iteration in which no callback was registered. After a call the flag
is cleared; the counter advances by one in every case. -/
theorem dispatch_iff_flag_and_callback (g : Globals) (loc : Locals) (d : MMF_Data)
    (hrun : g.g_running = true) (hset : g.g_isSetting = true)
    (hh : d.header = MMF_DATA_HEADER) (hf : d.footer = MMF_DATA_FOOTER)
    (hs : d.image_status = 1) (h0 : 0 < d.image_size) :
    ∃ (loc1 : Locals) (call : Option CallbackCall),
      tick g loc (some d) = .continued loc1 (some { d with image_status := 2 }) call
      ∧ (call.isSome = true ↔
          (Int.tmod loc.count 60 = 0 ∨ loc.isDetected = true)
            ∧ g.g_callbackFunctionPtr.isSome = true)
      ∧ (∀ c, call = some c → g.g_callbackFunctionPtr = some c.callback)
      ∧ (g.g_callbackFunctionPtr = none →
          call = none ∧
            (loc1.isDetected = true ↔ (Int.tmod loc.count 60 = 0 ∨ loc.isDetected = true)))
      ∧ (call.isSome = true → loc1.isDetected = false)
      ∧ (¬ Int.tmod loc.count 60 = 0 → loc.isDetected = false →
          call = none ∧ loc1.isDetected = false)
      ∧ loc1.count = wrapInt32 (loc.count + 1) := by
  have hc : (g.g_isSetting && decide (d.image_size > 0)) = true := by simp [hset, h0]
  rw [tick_produced g loc d hrun hh hf hs h0.le]
  simp only [hc, if_true]
  by_cases hm : Int.tmod loc.count 60 = 0
  · cases hcb : g.g_callbackFunctionPtr with
    | none => exact ⟨_, _, by simp only [hm, if_true]; rfl, by simp [hm]⟩
    | some cb => exact ⟨_, _, by simp only [hm, if_true]; rfl, by simp [hm]⟩
  · cases hdet : loc.isDetected with
    | false => exact ⟨_, _, by simp only [hm, if_false, Bool.false_eq_true]; rfl, by simp [hm]⟩
    | true =>
      cases hcb : g.g_callbackFunctionPtr with
      | none => exact ⟨_, _, by simp only [hm, if_false, if_true]; rfl, by simp [hm]⟩
      | some cb => exact ⟨_, _, by simp only [hm, if_false, if_true]; rfl, by simp [hm]⟩

theorem memcpy_const (c n : Nat) : memcpy (fun _ => c) n = List.replicate n c := by
  apply List.ext_get
  · simp [memcpy]
  · intro i h1 h2
    simp [memcpy]

theorem flattened_rois_eq :
    flattened_rois =
      [⟨0, 0⟩, ⟨10, 10⟩, ⟨30, 30⟩, ⟨40, 40⟩, ⟨50, 50⟩, ⟨60, 60⟩, ⟨70, 70⟩, ⟨80, 80⟩] := by
  decide

/-- An iteration that invokes the callback has taken a frame of positive
size from a valid produced slot, and the call carries that frame. -/
theorem tick_call_arguments (g : Globals) (loc loc1 : Locals) (seg seg1 : Option MMF_Data)
    (c : CallbackCall) (h : tick g loc seg = .continued loc1 seg1 (some c)) :
    ∃ d : MMF_Data, seg = some d
      ∧ d.header = MMF_DATA_HEADER ∧ d.footer = MMF_DATA_FOOTER
      ∧ d.image_status = 1 ∧ 0 < d.image_size
      ∧ seg1 = some { d with image_status := 2 }
      ∧ g.g_callbackFunctionPtr = some c.callback
      ∧ c =
        { callback := c.callback
          channelid := g.g_portnum
          width := d.image_width
          height := d.image_height
          imageframe := memcpy d.image_data d.image_size.toNat
          image_size := d.image_size
          timestamp := d.timestamp
          rois_rects := flattened_rois
          rois_count := 2
          node_count := 4 } := by
  unfold tick at h
  by_cases hrun : (!g.g_running) = true
  · simp [hrun] at h
  · simp only [hrun, if_false] at h
    cases hget : getMMF seg freshRefs with
    | threw => simp [hget] at h
    | returned r =>
      simp only [hget] at h
      by_cases hret : r.ret = 1
      · simp only [hret, if_true] at h
        by_cases hc : (g.g_isSetting && decide (r.refs.size > 0)) = true
        · simp only [hc, if_true] at h
          simp only [Bool.and_eq_true, decide_eq_true_eq] at hc
          obtain ⟨d, hseg, hh, hf, hs, h0, hr⟩ := getMMF_positive_size seg r hget hc.2
          subst hr
          cases hcb : g.g_callbackFunctionPtr with
          | none =>
            simp only [hcb] at h
            split_ifs at h <;> simp at h
          | some cb =>
            simp only [hcb] at h
            split_ifs at h <;>
              first
              | (simp only [TickResult.continued.injEq, Option.some.injEq] at h
                 obtain ⟨-, hs1, hcall⟩ := h
                 subst hcall
                 exact ⟨d, hseg, hh, hf, hs, h0, hs1.symm, rfl, rfl⟩)
              | (simp at h)
        · simp [hc] at h
      · simp [hret] at h

theorem scenario_frame :
    memcpy scenarioSlot.image_data scenarioSlot.image_size.toNat =
      List.replicate 921600 0xAB := by
  have hn : scenarioSlot.image_size.toNat = 921600 := rfl
  rw [hn]
  exact memcpy_const 0xAB 921600

theorem scenario_tick (cb : Nat) (url : String) :
    tick
        { g_portnum := 7, g_running := true, g_url := url,
          g_callbackFunctionPtr := some cb, g_isSetting := true }
        Locals.start (some scenarioSlot) =
      .continued { isDetected := false, count := 1 }
        (some { scenarioSlot with image_status := 2 })
        (some
          { callback := cb, channelid := 7, width := 640, height := 480
            imageframe := List.replicate 921600 0xAB
            image_size := 921600, timestamp := 1000
            rois_rects :=
              [⟨0, 0⟩, ⟨10, 10⟩, ⟨30, 30⟩, ⟨40, 40⟩, ⟨50, 50⟩, ⟨60, 60⟩, ⟨70, 70⟩, ⟨80, 80⟩]
            rois_count := 2, node_count := 4 }) := by
  rw [tick_produced _ Locals.start scenarioSlot rfl rfl rfl rfl (by decide),
    if_pos (by rfl), if_pos (by rfl), scenario_frame, flattened_rois_eq]
  rfl

/-- C7 as stated fails in its scenario: after Initialize(7) and
SettingParameters alone no callback is registered, so the iteration on the
scenario segment takes the frame (status 2, `isDetected` set, `count = 1`)
and invokes nothing. Besides, on the slot that declares one byte more than
the array holds, the buffer passed to the callback has `1920*1080*3 + 1`
bytes, one more than the payload has. -/
theorem scenario_without_registerCallback_calls_nothing :
    (run (Sys.start (some scenarioSlot))
        [.callInitialize 7, .callSettingParameters sampleParameters, .pollerTick]).calls = []
    ∧ (run (Sys.start (some scenarioSlot))
        [.callInitialize 7, .callSettingParameters sampleParameters, .pollerTick]).poller
      = .running { isDetected := true, count := 1 }
    ∧ ((run (Sys.start (some scenarioSlot))
        [.callInitialize 7, .callSettingParameters sampleParameters, .pollerTick]).seg.map
          fun d => d.image_status) = some 2
    ∧ ∃ (loc1 : Locals) (seg1 : Option MMF_Data) (c : CallbackCall),
        tick readyToDispatch.g Locals.start (some oversizedSlot) =
          .continued loc1 seg1 (some c)
        ∧ c.imageframe.length = IMAGE_DATA_CAPACITY + 1 := by
  refine ⟨rfl, rfl, rfl, ?_⟩
  have hn : oversizedSlot.image_size.toNat = IMAGE_DATA_CAPACITY + 1 := rfl
  rw [tick_produced readyToDispatch.g Locals.start oversizedSlot rfl rfl rfl rfl (by decide),
    if_pos (by rfl), if_pos (by rfl), hn]
  have hcb : readyToDispatch.g.g_callbackFunctionPtr = some 1 := rfl
  simp only [hcb]
  refine ⟨_, _, _, rfl, ?_⟩
  simp only [memcpy_length]

/-- C7, amended: whenever an iteration invokes the callback, the slot it read
is a valid produced slot of positive size and the arguments are `g_portnum`
(the value stored by Initialize), the slot's width and height, a buffer
holding the `image_size` bytes copied from the start of `image_data`, the
slot's size and timestamp, the eight ROIs of the two groups in group order
(`flattened_rois[i*4+j] = rois[i][j]`) and the counts 2 and 4 whose product
is the number of ROIs; the function called is the registered one. Scenario:
for channel 7 with status 1, 640 x 480, size 921600, timestamp 1000 and a
payload of 0xAB, Initialize(7), SettingParameters, registerCallback(cb) and
then one iteration give exactly one call, to `cb`, with channel 7, 640, 480,
921600 bytes of 0xAB, size 921600 and timestamp 1000. -/
theorem callback_arguments :
    (∀ (g : Globals) (loc loc1 : Locals) (seg seg1 : Option MMF_Data) (c : CallbackCall),
        tick g loc seg = .continued loc1 seg1 (some c) →
        ∃ d : MMF_Data, seg = some d
          ∧ d.header = MMF_DATA_HEADER ∧ d.footer = MMF_DATA_FOOTER
          ∧ d.image_status = 1 ∧ 0 < d.image_size
          ∧ c.channelid = g.g_portnum
          ∧ c.width = d.image_width ∧ c.height = d.image_height
          ∧ c.imageframe = memcpy d.image_data d.image_size.toNat
          ∧ (c.imageframe.length : Int) = d.image_size
          ∧ (d.image_size ≤ IMAGE_DATA_CAPACITY →
              ∀ (i : Nat) (hi : i < c.imageframe.length),
                i < IMAGE_DATA_CAPACITY ∧ c.imageframe.get ⟨i, hi⟩ = d.image_data i)
          ∧ c.image_size = d.image_size ∧ c.timestamp = d.timestamp
          ∧ c.rois_rects = flattened_rois
          ∧ c.rois_count = 2 ∧ c.node_count = 4
          ∧ c.rois_count * c.node_count = flattened_rois.length
          ∧ g.g_callbackFunctionPtr = some c.callback)
    ∧ (∀ i j : Nat, i < 2 → j < 4 → flattened_rois[i * 4 + j]? = some (roisAt i j))
    ∧ (∀ (port : Int) (s : Sys), (Initialize port s).g.g_portnum = port)
    ∧ (∀ (cb : Nat) (p : SettingParametersData),
        (run (Sys.start (some scenarioSlot))
          [.callInitialize 7, .callSettingParameters p, .callRegisterCallback (some cb),
            .pollerTick]).calls =
          [{ callback := cb, channelid := 7, width := 640, height := 480
             imageframe := List.replicate 921600 0xAB
             image_size := 921600, timestamp := 1000
             rois_rects :=
               [⟨0, 0⟩, ⟨10, 10⟩, ⟨30, 30⟩, ⟨40, 40⟩, ⟨50, 50⟩, ⟨60, 60⟩, ⟨70, 70⟩, ⟨80, 80⟩]
             rois_count := 2, node_count := 4 }]) := by
  refine ⟨?_, ?_, ?_, ?_⟩
  · intro g loc loc1 seg seg1 c h
    obtain ⟨d, hseg, hh, hf, hs, h0, -, hcb, hc⟩ := tick_call_arguments g loc loc1 seg seg1 c h
    refine ⟨d, hseg, hh, hf, hs, h0, ?_⟩
    rw [hc]
    refine ⟨rfl, rfl, rfl, rfl, ?_, ?_, rfl, rfl, rfl, rfl, rfl, ?_, hcb⟩
    · show ((memcpy d.image_data d.image_size.toNat).length : Int) = d.image_size
      rw [memcpy_length]; exact Int.toNat_of_nonneg h0.le
    · intro hcap i hi
      refine ⟨?_, memcpy_get _ _ _ hi⟩
      have hlen : i < d.image_size.toNat := by
        have := hi
        simp only [memcpy_length] at this
        exact this
      have := Int.toNat_of_nonneg h0.le
      omega
    · rw [flattened_rois_eq]; rfl
  · intro i j hi hj
    interval_cases i <;> interval_cases j <;> rfl
  · intro port s
    unfold Initialize
    split <;> rfl
  · intro cb p
    show (pollerStep
      { g := { g_portnum := 7, g_running := true, g_url := p.analytics_event_api_url,
               g_callbackFunctionPtr := some cb, g_isSetting := true }
        poller := .running Locals.start, seg := some scenarioSlot, calls := [] }).calls = _
    rw [pollerStep_running _ Locals.start rfl]
    simp only [scenario_tick]
    rfl

/-- C7, amended, at the state with a pending detection and the sample slot:
the first part applied to the iteration that dispatches there. -/
theorem callback_arguments_witness :
    ∃ d : MMF_Data, pendingDetection.seg = some d
      ∧ d.header = MMF_DATA_HEADER ∧ d.footer = MMF_DATA_FOOTER
      ∧ d.image_status = 1 ∧ 0 < d.image_size
      ∧ (7 : Int) = pendingDetection.g.g_portnum
      ∧ (1 : Int) = d.image_width ∧ (1 : Int) = d.image_height
      ∧ [1, 2, 3] = memcpy d.image_data d.image_size.toNat
      ∧ (([1, 2, 3] : List Nat).length : Int) = d.image_size
      ∧ (d.image_size ≤ IMAGE_DATA_CAPACITY →
          ∀ (i : Nat) (hi : i < ([1, 2, 3] : List Nat).length),
            i < IMAGE_DATA_CAPACITY ∧ ([1, 2, 3] : List Nat).get ⟨i, hi⟩ = d.image_data i)
      ∧ (3 : Int) = d.image_size ∧ 1000 = d.timestamp
      ∧ [⟨0, 0⟩, ⟨10, 10⟩, ⟨30, 30⟩, ⟨40, 40⟩, ⟨50, 50⟩, ⟨60, 60⟩, ⟨70, 70⟩, ⟨80, 80⟩]
          = flattened_rois
      ∧ (2 : Int) = 2 ∧ (4 : Int) = 4
      ∧ (2 : Int) * 4 = flattened_rois.length
      ∧ pendingDetection.g.g_callbackFunctionPtr = some 1 :=
  callback_arguments.1 pendingDetection.g { isDetected := true, count := 1 }
    { isDetected := false, count := 2 } pendingDetection.seg
    (some { sampleSlot with image_status := 2 })
    { callback := 1, channelid := 7, width := 1, height := 1, imageframe := [1, 2, 3]
      image_size := 3, timestamp := 1000
      rois_rects :=
        [⟨0, 0⟩, ⟨10, 10⟩, ⟨30, 30⟩, ⟨40, 40⟩, ⟨50, 50⟩, ⟨60, 60⟩, ⟨70, 70⟩, ⟨80, 80⟩]
      rois_count := 2, node_count := 4 }
    rfl

/-! ## The unguarded callback pointer -/

/-- Run without interruption, the two statements call what one iteration of
`tick` calls and leave the flag it leaves. -/
theorem pollerStatement_twice_eq_tick (g : Globals) (loc : Locals) (d : MMF_Data)
    (hrun : g.g_running = true) (hset : g.g_isSetting = true)
    (hh : d.header = MMF_DATA_HEADER) (hf : d.footer = MMF_DATA_FOOTER)
    (hs : d.image_status = 1) (h0 : 0 < d.image_size) :
    ∃ (loc1 : Locals) (seg1 : Option MMF_Data) (call : Option CallbackCall),
      tick g loc (some d) = .continued loc1 seg1 call
      ∧ (interleave
          { g := g, isDetected := if Int.tmod loc.count 60 = 0 then true else loc.isDetected,
            pc := .atTest, called := none } [.poller, .poller]).called
        = call.map (fun c => some c.callback)
      ∧ (interleave
          { g := g, isDetected := if Int.tmod loc.count 60 = 0 then true else loc.isDetected,
            pc := .atTest, called := none } [.poller, .poller]).isDetected
        = loc1.isDetected := by
  have hc : (g.g_isSetting && decide (d.image_size > 0)) = true := by simp [hset, h0]
  rw [tick_produced g loc d hrun hh hf hs h0.le]
  simp only [hc, if_true]
  cases hdet : (if Int.tmod loc.count 60 = 0 then true else loc.isDetected) with
  | false =>
    exact ⟨_, _, _, by simp only [Bool.false_eq_true, if_false]; rfl,
      by simp [interleave, turn, pollerStatement]⟩
  | true =>
    cases hcb : g.g_callbackFunctionPtr with
    | none =>
      exact ⟨_, _, _, by simp only [if_true]; rfl,
        by simp [interleave, turn, pollerStatement, hcb]⟩
    | some cb =>
      exact ⟨_, _, _, by simp only [if_true]; rfl,
        by simp [interleave, turn, pollerStatement, hcb]⟩

/-- C10, the code: the poller reads `g_callbackFunctionPtr` twice, and the
writers do not take `g_mtx`. With callback 1 registered and the flag set,
the schedule "poller tests (non-null), host runs unregisterCallback, poller
calls" makes the poller call through a null pointer; without the host turn
the same two statements call function 1. -/
theorem unregisterCallback_between_test_and_call :
    (interleave atTestWithCallback [.poller]).pc = .atCall
    ∧ (interleave atTestWithCallback [.poller, .hostUnregisterCallback, .poller]).called
        = some none
    ∧ (interleave atTestWithCallback [.poller, .poller]).called = some (some 1)
    ∧ (interleave atTestWithCallback
        [.poller, .hostRegisterCallback (some 2), .poller]).called = some (some 2) := by
  decide

end SampleDLL
